import Mathlib

/-!
Shallow embedding of `src/age_estimator.py` (class `AgeCalculator`) from the
tiktok-age-checker-api repository, together with proofs settling the frozen
claims C1–C10 about its behaviour.

Modelling conventions:
* Python strings are `List Char`; `str.isdigit` is modelled as "non-empty and
  all ASCII decimal digits" (Python's unicode-digit extras all lead to the
  same `None` outcome in `estimate_from_user_id`, via the `int()` exception
  handler).
* `datetime` values produced by the estimator are UTC midnights, modelled by
  the `Date` structure; `datetime` comparison is field-wise lexicographic,
  which coincides with chronological order on valid dates.
* `datetime.timestamp()` is modelled by `toEpoch` (Howard Hinnant's
  days-from-civil algorithm, exact for the proleptic Gregorian calendar that
  `datetime` uses); the "current time" parameter `now` of the aggregator is an
  arbitrary rational epoch-second value, and `datetime.fromtimestamp` is the
  identity on epoch seconds.
* Python float arithmetic in `estimate_from_metrics` is modelled exactly:
  for `n ≥ 1`, `int(math.log10(n) * 0.5) = Nat.log 10 n / 2` and
  `int(math.log10(n) * 0.4) = Nat.log 10 (n * n) / 5` (the floor identities
  `⌊x/2⌋ = ⌊⌊x⌋/2⌋` and `⌊2x/5⌋ = ⌊⌊2x⌋/5⌋` with `⌊log10 n⌋ = Nat.log 10 n`
  and `⌊log10 (n^2)⌋ = Nat.log 10 (n*n)`; double rounding cannot cross an
  integer boundary because `log10` of an integer is irrational except at
  powers of ten, where IEEE `log10` is exact).
-/

/-- A UTC calendar date (the estimator only ever builds midnight datetimes). -/
structure Date where
  year : ℕ
  month : ℕ
  day : ℕ
deriving Repr, DecidableEq

/-- Python `datetime <` (same tzinfo): lexicographic on (year, month, day). -/
def dateLt (a b : Date) : Bool :=
  decide (a.year < b.year) ||
    (decide (a.year = b.year) &&
      (decide (a.month < b.month) ||
        (decide (a.month = b.month) && decide (a.day < b.day))))

/-- Python `datetime <=` (same tzinfo): lexicographic on (year, month, day). -/
def dateLe (a b : Date) : Bool :=
  decide (a.year < b.year) ||
    (decide (a.year = b.year) &&
      (decide (a.month < b.month) ||
        (decide (a.month = b.month) && decide (a.day ≤ b.day))))

theorem dateLt_iff (a b : Date) : dateLt a b = true ↔
    (a.year < b.year ∨ (a.year = b.year ∧
      (a.month < b.month ∨ (a.month = b.month ∧ a.day < b.day)))) := by
  simp [dateLt]

theorem dateLe_iff (a b : Date) : dateLe a b = true ↔
    (a.year < b.year ∨ (a.year = b.year ∧
      (a.month < b.month ∨ (a.month = b.month ∧ a.day ≤ b.day)))) := by
  simp [dateLe]

theorem dateLe_refl (a : Date) : dateLe a a = true := by
  rw [dateLe_iff]; omega

theorem dateLe_trans {a b c : Date} (h1 : dateLe a b = true)
    (h2 : dateLe b c = true) : dateLe a c = true := by
  rw [dateLe_iff] at *; omega

theorem dateLe_of_not_lt {a b : Date} (h : ¬ dateLt a b = true) :
    dateLe b a = true := by
  rw [dateLe_iff]
  rw [dateLt_iff] at h
  omega

theorem dateLe_of_lt {a b : Date} (h : dateLt a b = true) :
    dateLe a b = true := by
  rw [dateLe_iff]; rw [dateLt_iff] at h; omega

theorem dateLe_year {a b : Date} (h : dateLe a b = true) :
    a.year ≤ b.year := by
  rw [dateLe_iff] at h; omega

/-- Days from the Unix epoch to a civil date (Hinnant's `days_from_civil`,
the same proleptic-Gregorian arithmetic `datetime.timestamp()` realises). -/
def epochDays (d : Date) : ℤ :=
  let y : ℕ := d.year - (if d.month ≤ 2 then 1 else 0)
  let era : ℕ := y / 400
  let yoe : ℕ := y - era * 400
  let mp : ℕ := (d.month + 9) % 12
  let doy : ℕ := (153 * mp + 2) / 5 + (d.day - 1)
  let doe : ℕ := yoe * 365 + yoe / 4 - yoe / 100 + doy
  (era * 146097 + doe : ℤ) - 719468

/-- `datetime.timestamp()` of a UTC midnight, in epoch seconds. -/
def toEpoch (d : Date) : ℤ := 86400 * epochDays d

/-- `USER_ID_RANGES` from `age_estimator.py` (lines 13–31); the unbounded
upper bound `float('inf')` of the last entry is modelled as `none`. -/
def USER_ID_RANGES : List (ℕ × Option ℕ × Date) :=
  [ (0, some 100000000, ⟨2016, 9, 1⟩),
    (100000000, some 500000000, ⟨2017, 1, 1⟩),
    (500000000, some 1000000000, ⟨2017, 6, 1⟩),
    (1000000000, some 2000000000, ⟨2018, 1, 1⟩),
    (2000000000, some 5000000000, ⟨2018, 8, 1⟩),
    (5000000000, some 10000000000, ⟨2019, 3, 1⟩),
    (10000000000, some 20000000000, ⟨2019, 9, 1⟩),
    (20000000000, some 50000000000, ⟨2020, 3, 1⟩),
    (50000000000, some 100000000000, ⟨2020, 9, 1⟩),
    (100000000000, some 200000000000, ⟨2021, 3, 1⟩),
    (200000000000, some 500000000000, ⟨2021, 9, 1⟩),
    (500000000000, some 1000000000000, ⟨2022, 3, 1⟩),
    (1000000000000, some 2000000000000, ⟨2022, 9, 1⟩),
    (2000000000000, some 5000000000000, ⟨2023, 3, 1⟩),
    (5000000000000, some 10000000000000, ⟨2023, 9, 1⟩),
    (10000000000000, some 20000000000000, ⟨2024, 3, 1⟩),
    (20000000000000, none, ⟨2024, 9, 1⟩) ]

/-- `min_id <= user_id_int < max_id` for one table entry. -/
def inRange (e : ℕ × Option ℕ × Date) (n : ℕ) : Bool :=
  decide (e.1 ≤ n) && (match e.2.1 with
    | some hi => decide (n < hi)
    | none => true)

/-- Python `str.isdigit()` restricted to ASCII decimal digits (see header). -/
def pyIsDigit (s : List Char) : Bool := !s.isEmpty && s.all Char.isDigit

/-- `int()` of a decimal-digit string. -/
def strToNat (s : List Char) : ℕ :=
  s.foldl (fun a c => 10 * a + (c.toNat - '0'.toNat)) 0

/-- `AgeCalculator.estimate_from_user_id` (lines 44–70): reject empty or
non-digit input, otherwise return the date of the first matching range
(the scan loop with early `return` is `List.find?`); `None` if no range
matches. -/
def estimate_from_user_id (user_id : List Char) : Option Date :=
  if !pyIsDigit user_id then none
  else
    (USER_ID_RANGES.find? (fun e => inRange e (strToNat user_id))).map
      (fun e => e.2.2)

example : toEpoch ⟨2021, 1, 1⟩ = 1609459200 := by decide
example : toEpoch ⟨1970, 1, 1⟩ = 0 := by decide
example : estimate_from_user_id ['3', '0', '0', '0', '0', '0', '0', '0', '0', '0']
    = some ⟨2018, 8, 1⟩ := by decide
example : estimate_from_user_id [] = none := by decide
example : estimate_from_user_id ['a', '1'] = none := by decide

/-- ASCII `[a-z]`. -/
def isLowerAlpha (c : Char) : Bool := decide ('a' ≤ c) && decide (c ≤ 'z')

/-- Regex `\w` word character (ASCII approximation of the unicode class). -/
def isWordChar (c : Char) : Bool := c.isAlphanum || c == '_'

/-- Regex `^user\d\x7b7,9\x7d$`: "user" followed by 7–9 digits. -/
def matchUserNum (s : List Char) : Bool :=
  (s.take 4 == ['u', 's', 'e', 'r']) &&
    (decide (7 ≤ (s.drop 4).length) && decide ((s.drop 4).length ≤ 9) &&
      (s.drop 4).all Char.isDigit)

/-- Regex `^[a-z]\x7b3,8\x7d\d\x7b2,4\x7d$`: some split into 3–8 lowercase
letters followed by 2–4 digits (backtracking = existence of a split). -/
def matchAlphaNum (s : List Char) : Bool :=
  (List.range (s.length + 1)).any (fun k =>
    decide (3 ≤ k) && decide (k ≤ 8) &&
      decide (2 ≤ s.length - k) && decide (s.length - k ≤ 4) &&
      (s.take k).all isLowerAlpha && (s.drop k).all Char.isDigit)

/-- Regex `^\w\x7b3,8\x7d$`. -/
def matchWord38 (s : List Char) : Bool :=
  decide (3 ≤ s.length) && decide (s.length ≤ 8) && s.all isWordChar

/-- Regex `^.\x7b1,8\x7d$` (`.` excludes the newline character). -/
def matchAny18 (s : List Char) : Bool :=
  decide (1 ≤ s.length) && decide (s.length ≤ 8) && s.all (fun c => c != '\n')

/-- Regex `^[\w.]\x7b1,15\x7d$`. -/
def matchWordDot115 (s : List Char) : Bool :=
  decide (1 ≤ s.length) && decide (s.length ≤ 15) &&
    s.all (fun c => isWordChar c || c == '.')

/-- Regex `.*`: `re.match` always succeeds (possibly with an empty match). -/
def matchAnything (_s : List Char) : Bool := true

/-- `USERNAME_PATTERNS` from `age_estimator.py` (lines 33–40). -/
def USERNAME_PATTERNS : List ((List Char → Bool) × Date) :=
  [ (matchUserNum, ⟨2016, 9, 1⟩),
    (matchAlphaNum, ⟨2017, 3, 1⟩),
    (matchWord38, ⟨2017, 9, 1⟩),
    (matchAny18, ⟨2018, 6, 1⟩),
    (matchWordDot115, ⟨2019, 1, 1⟩),
    (matchAnything, ⟨2020, 1, 1⟩) ]

/-- `AgeCalculator.estimate_from_username` (lines 73–95): reject empty input,
otherwise first matching pattern wins; the `USERNAME_PATTERNS[-1][1]`
fallback of line 92 is kept even though the catch-all makes it dead code. -/
def estimate_from_username (username : List Char) : Option Date :=
  if username.isEmpty then none
  else
    match USERNAME_PATTERNS.find? (fun p => p.1 username) with
    | some p => some p.2
    | none => some ((USERNAME_PATTERNS.getLastD (matchAnything, ⟨2020, 1, 1⟩)).2)

example : estimate_from_username [] = none := by decide
example : estimate_from_username ['x', 'x'] = some ⟨2018, 6, 1⟩ := by decide
example : estimate_from_username ['a', 'b', 'c', '1', '2', '3']
    = some ⟨2017, 3, 1⟩ := by decide

/-- Fuel-driven base-10 floor logarithm (structurally recursive so that the
kernel can evaluate it, unlike `Nat.log`). -/
def log10Aux : ℕ → ℕ → ℕ
  | 0, _ => 0
  | fuel + 1, n => if n < 10 then 0 else log10Aux fuel (n / 10) + 1

/-- `⌊log10 n⌋` for `n ≥ 1`; agrees with `Nat.log 10` (`intLog10_eq_log`). -/
def intLog10 (n : ℕ) : ℕ := log10Aux n n

theorem log10Aux_eq_log : ∀ fuel n, n ≤ fuel → log10Aux fuel n = Nat.log 10 n
  | 0, n, h => by
    interval_cases n
    simp [log10Aux]
  | fuel + 1, n, h => by
    rw [log10Aux]
    by_cases h10 : n < 10
    · rw [if_pos h10, Nat.log_of_lt h10]
    · have hfuel : n / 10 ≤ fuel := by omega
      have hrec : log10Aux fuel (n / 10) = Nat.log 10 (n / 10) :=
        log10Aux_eq_log fuel (n / 10) hfuel
      have h1 : (1 : ℕ) < 10 := by omega
      have h2 : 10 ≤ n := by omega
      rw [if_neg h10, hrec]
      conv_rhs => rw [Nat.log_of_one_lt_of_le h1 h2]

theorem intLog10_eq_log (n : ℕ) : intLog10 n = Nat.log 10 n :=
  log10Aux_eq_log n n le_rfl

/-- Line 121: `2021 - min(int(math.log10(followers + 1) * 0.5), 4)`,
using the exact float model from the header. -/
def followerYear (followers : ℤ) : ℕ :=
  2021 - min (intLog10 (followers.toNat + 1) / 2) 4

/-- Line 127: `2021 - min(int(math.log10(total_likes + 1) * 0.4), 4)`,
using the exact float model from the header. -/
def likesYear (total_likes : ℤ) : ℕ :=
  2021 - min (intLog10 ((total_likes.toNat + 1) * (total_likes.toNat + 1)) / 5) 4

/-- The `scores` list built by lines 119–132 (follower candidate, then likes
candidate, then the fixed verified-account candidate). -/
def metricScores (followers total_likes : ℤ) (verified : Bool) : List Date :=
  (if 0 < followers then [⟨followerYear followers, 1, 1⟩] else []) ++
    ((if 0 < total_likes then [⟨likesYear total_likes, 6, 1⟩] else []) ++
      (if verified then [⟨2018, 1, 1⟩] else []))

/-- Python `min(iterable)`: keep the current minimum, replace only on a
strictly smaller item. -/
def minList (h : Date) (t : List Date) : Date :=
  t.foldl (fun acc x => if dateLt x acc then x else acc) h

/-- Python two-argument `max(a, b)`: returns `b` exactly when `b > a`. -/
def dateMax (a b : Date) : Date := if dateLt a b then b else a

/-- `base_date` (line 115), the default for new accounts. -/
def base_date : Date := ⟨2021, 1, 1⟩

/-- `earliest_date` (line 116), the TikTok launch date. -/
def earliest_date : Date := ⟨2016, 9, 1⟩

/-- `AgeCalculator.estimate_from_metrics` (lines 98–138). -/
def estimate_from_metrics (followers total_likes : ℤ) (verified : Bool) :
    Option Date :=
  if followers < 0 ∨ total_likes < 0 then none
  else
    match metricScores followers total_likes verified with
    | [] => some base_date
    | h :: t => some (dateMax (minList h t) earliest_date)

example : estimate_from_metrics 0 0 false = some ⟨2021, 1, 1⟩ := by decide
example : estimate_from_metrics 9 0 false = some ⟨2021, 1, 1⟩ := by decide
example : estimate_from_metrics 99 0 false = some ⟨2020, 1, 1⟩ := by decide
example : estimate_from_metrics 0 1 false = some ⟨2021, 6, 1⟩ := by decide
example : estimate_from_metrics (-1) 0 false = none := by decide
example : estimate_from_metrics 100000000 0 true = some ⟨2017, 1, 1⟩ := by decide

/-- One entry of the `estimates` list built by `estimate_account_age`
(a `{'date', 'confidence', 'method'}` dict). -/
structure Estimate where
  date : Date
  confidence : ℕ
  method : String
deriving Repr, DecidableEq

/-- The dict returned by `AgeCalculator.estimate_account_age`; the estimated
date is carried as its epoch-second timestamp (`datetime.fromtimestamp` is
the identity in this model). -/
structure AggResult where
  estimated_date : ℚ
  confidence : String
  method : String
  accuracy : String
  all_estimates : List Estimate
deriving Repr, DecidableEq

/-- One `if est and est <= now: estimates.append(...)` block of lines
171–193 (a datetime is always truthy, so the test is the comparison). -/
def validEstimates (o : Option Date) (w : ℕ) (m : String) (now : ℚ) :
    List Estimate :=
  match o with
  | some d => if (toEpoch d : ℚ) ≤ now then [⟨d, w, m⟩] else []
  | none => []

/-- The `estimates` list of lines 167–193, in evaluation order: user id
(weight 3), then username (weight 2), then metrics (weight 1).  The weights
are the `confidence_scores` dict `low=1, medium=2, high=3` of line 168. -/
def buildEstimates (user_id username : List Char)
    (followers total_likes : ℤ) (verified : Bool) (now : ℚ) : List Estimate :=
  validEstimates (estimate_from_user_id user_id) 3 "User ID Analysis" now ++
    (validEstimates (estimate_from_username username) 2 "Username Pattern" now ++
      validEstimates (estimate_from_metrics followers total_likes verified) 1
        "Profile Metrics" now)

/-- Lines 195–229: default result on an empty estimate list, otherwise the
confidence-weighted mean plus confidence/method/accuracy derivation. -/
def aggregate (ests : List Estimate) (now : ℚ) : AggResult :=
  if ests.isEmpty then
    { estimated_date := now
      confidence := "very_low"
      method := "Default"
      accuracy := "± 2 years"
      all_estimates := [] }
  else
    let weighted_sum : ℚ :=
      (ests.map (fun e => (toEpoch e.date : ℚ) * e.confidence)).sum
    let total_weight : ℚ := (ests.map (fun e => (e.confidence : ℚ))).sum
    let final_timestamp : ℚ := weighted_sum / total_weight
    let max_confidence : ℕ := (ests.map (fun e => e.confidence)).foldl max 0
    let confidence_level : String :=
      if max_confidence = 3 then "high"
      else if max_confidence = 2 then "medium" else "low"
    let primary_method : String :=
      match ests.find? (fun e => e.confidence = max_confidence) with
      | some e => e.method
      | none => "Combined"
    let accuracy : String :=
      if confidence_level = "high" then "± 6 months"
      else if confidence_level = "medium" then "± 1 year" else "± 2 years"
    { estimated_date := final_timestamp
      confidence := confidence_level
      method := primary_method
      accuracy := accuracy
      all_estimates := ests }

/-- `AgeCalculator.estimate_account_age` (lines 142–229) with the current
time passed explicitly as epoch seconds. -/
def estimate_account_age (user_id username : List Char)
    (followers total_likes : ℤ) (verified : Bool) (now : ℚ) : AggResult :=
  aggregate (buildEstimates user_id username followers total_likes verified now)
    now

/-- Weighted mean of the estimates' timestamps exactly as §4.4 of the spec
words it: `sum(date_i.asEpochSeconds * weight_i) / sum(weight_i)`. -/
def weightedMeanSpec (l : List Estimate) : ℚ :=
  (l.map (fun e => (toEpoch e.date : ℚ) * e.confidence)).sum /
    (l.map (fun e => (e.confidence : ℚ))).sum

example : (estimate_account_age [] [] 0 0 false 1750000000).confidence
    = "low" := by decide
example : (estimate_account_age [] [] 0 0 false 1000).confidence
    = "very_low" := by decide

/-- A UTC datetime at second granularity (microseconds not modelled): a
calendar date plus seconds within the day.  Used by `calculate_age`, whose
inputs are arbitrary datetimes, not just midnights. -/
structure DT where
  year : ℕ
  month : ℕ
  day : ℕ
  secs : ℕ
deriving Repr, DecidableEq

/-- Python `datetime <` on aware datetimes (lexicographic = chronological
for valid dates). -/
def dtLt (a b : DT) : Bool :=
  decide (a.year < b.year) ||
    (decide (a.year = b.year) &&
      (decide (a.month < b.month) ||
        (decide (a.month = b.month) &&
          (decide (a.day < b.day) ||
            (decide (a.day = b.day) && decide (a.secs < b.secs))))))

/-- Gregorian leap-year rule (`calendar.isleap`). -/
def isLeap (y : ℕ) : Bool :=
  decide (y % 4 = 0) && (decide (y % 100 ≠ 0) || decide (y % 400 = 0))

/-- Days in a month of a given year. -/
def daysInMonth (y m : ℕ) : ℕ :=
  if m = 2 then (if isLeap y then 29 else 28)
  else if m = 4 ∨ m = 6 ∨ m = 9 ∨ m = 11 then 30 else 31

/-- `dt + relativedelta(months=n)` (dateutil `__radd__`): shift the month
with year carry, clamping the day to the target month's length. -/
def addMonths (dt : DT) (n : ℤ) : DT :=
  let tot : ℤ := ((dt.year : ℤ) * 12 + ((dt.month : ℤ) - 1)) + n
  let y : ℕ := (tot.toNat) / 12
  let m : ℕ := (tot.toNat) % 12 + 1
  ⟨y, m, min dt.day (daysInMonth y m), dt.secs⟩

/-- Epoch seconds of a `DT` (for the `dt1 - dtm` timedelta). -/
def epochSecsDT (dt : DT) : ℤ :=
  toEpoch ⟨dt.year, dt.month, dt.day⟩ + dt.secs

/-- The month-adjustment loop of `relativedelta.__init__`: while
`dt1 < dt2 + months`, decrement `months`.  Fuel-driven; `relativedeltaYMD`
supplies enough fuel for the loop to reach its fixpoint. -/
def rdAdjust : ℕ → ℤ → DT → DT → ℤ
  | 0, m, _, _ => m
  | fuel + 1, m, dt1, dt2 =>
      if dtLt dt1 (addMonths dt2 m) then rdAdjust fuel (m - 1) dt1 dt2 else m

/-- `dateutil.relativedelta(dt1, dt2).years/.months/.days` for `dt2 ≤ dt1`
(the only direction `calculate_age` reaches after its future-date guard):
start from the raw month difference, decrement while the shifted `dt2`
overshoots `dt1`, then split the remaining timedelta into whole days
(`_set_months` normalisation and the hours→days carry of `_fix`). -/
def relativedeltaYMD (dt1 dt2 : DT) : ℕ × ℕ × ℕ :=
  let months0 : ℤ := ((dt1.year : ℤ) - dt2.year) * 12 + ((dt1.month : ℤ) - dt2.month)
  let months : ℤ := rdAdjust (months0.toNat + 1) months0 dt1 dt2
  let dtm : DT := addMonths dt2 months
  let days : ℕ := ((epochSecsDT dt1 - epochSecsDT dtm).toNat) / 86400
  (months.toNat / 12, months.toNat % 12, days)

/-- Pluralisation used on lines 280–287: append "s" exactly when the count
exceeds one. -/
def pluralize (n : ℕ) (unit : String) : String :=
  toString n ++ " " ++ unit ++ (if n > 1 then "s" else "")

/-- `AgeCalculator.calculate_age` (lines 252–289) with the current time
passed explicitly.  Timezone coercion (lines 266–268) is the identity here
since every `DT` is already UTC; the non-datetime guard of line 262 is
outside a typed embedding. -/
def calculate_age (created_date : DT) (now : DT) : String :=
  if dtLt now created_date then "0 days"
  else
    let r := relativedeltaYMD now created_date
    let years := r.1
    let months := r.2.1
    let days := r.2.2
    if years > 0 then
      String.intercalate " and "
        ([pluralize years "year"] ++
          (if months > 0 then [pluralize months "month"] else []))
    else if months > 0 then pluralize months "month"
    else if days > 0 then pluralize days "day"
    else "0 days"

example : calculate_age ⟨2024, 1, 15, 0⟩ ⟨2025, 2, 15, 0⟩
    = "1 year and 1 month" := by decide
example : calculate_age ⟨2023, 2, 10, 0⟩ ⟨2025, 2, 10, 0⟩ = "2 years" := by decide
example : calculate_age ⟨2025, 1, 1, 0⟩ ⟨2025, 2, 20, 0⟩
    = "1 month" := by decide
example : calculate_age ⟨2025, 2, 1, 0⟩ ⟨2025, 2, 20, 0⟩ = "19 days" := by decide
example : calculate_age ⟨2025, 2, 20, 0⟩ ⟨2025, 2, 20, 0⟩ = "0 days" := by decide
example : calculate_age ⟨2026, 1, 1, 0⟩ ⟨2025, 2, 20, 0⟩ = "0 days" := by decide
example : calculate_age ⟨2024, 1, 31, 0⟩ ⟨2024, 3, 1, 0⟩ = "1 month" := by decide
example : calculate_age ⟨2022, 3, 5, 7⟩ ⟨2025, 3, 5, 6⟩
    = "2 years and 11 months" := by decide

theorem ranges_cover (n : ℕ) : ∃ e ∈ USER_ID_RANGES, inRange e n = true := by
  by_cases h0 : n < 100000000
  · exact ⟨(0, some 100000000, ⟨2016, 9, 1⟩), by decide, by simp [inRange]; omega⟩
  by_cases h1 : n < 500000000
  · exact ⟨(100000000, some 500000000, ⟨2017, 1, 1⟩), by decide, by
      simp [inRange]; omega⟩
  by_cases h2 : n < 1000000000
  · exact ⟨(500000000, some 1000000000, ⟨2017, 6, 1⟩), by decide, by
      simp [inRange]; omega⟩
  by_cases h3 : n < 2000000000
  · exact ⟨(1000000000, some 2000000000, ⟨2018, 1, 1⟩), by decide, by
      simp [inRange]; omega⟩
  by_cases h4 : n < 5000000000
  · exact ⟨(2000000000, some 5000000000, ⟨2018, 8, 1⟩), by decide, by
      simp [inRange]; omega⟩
  by_cases h5 : n < 10000000000
  · exact ⟨(5000000000, some 10000000000, ⟨2019, 3, 1⟩), by decide, by
      simp [inRange]; omega⟩
  by_cases h6 : n < 20000000000
  · exact ⟨(10000000000, some 20000000000, ⟨2019, 9, 1⟩), by decide, by
      simp [inRange]; omega⟩
  by_cases h7 : n < 50000000000
  · exact ⟨(20000000000, some 50000000000, ⟨2020, 3, 1⟩), by decide, by
      simp [inRange]; omega⟩
  by_cases h8 : n < 100000000000
  · exact ⟨(50000000000, some 100000000000, ⟨2020, 9, 1⟩), by decide, by
      simp [inRange]; omega⟩
  by_cases h9 : n < 200000000000
  · exact ⟨(100000000000, some 200000000000, ⟨2021, 3, 1⟩), by decide, by
      simp [inRange]; omega⟩
  by_cases h10 : n < 500000000000
  · exact ⟨(200000000000, some 500000000000, ⟨2021, 9, 1⟩), by decide, by
      simp [inRange]; omega⟩
  by_cases h11 : n < 1000000000000
  · exact ⟨(500000000000, some 1000000000000, ⟨2022, 3, 1⟩), by decide, by
      simp [inRange]; omega⟩
  by_cases h12 : n < 2000000000000
  · exact ⟨(1000000000000, some 2000000000000, ⟨2022, 9, 1⟩), by decide, by
      simp [inRange]; omega⟩
  by_cases h13 : n < 5000000000000
  · exact ⟨(2000000000000, some 5000000000000, ⟨2023, 3, 1⟩), by decide, by
      simp [inRange]; omega⟩
  by_cases h14 : n < 10000000000000
  · exact ⟨(5000000000000, some 10000000000000, ⟨2023, 9, 1⟩), by decide, by
      simp [inRange]; omega⟩
  by_cases h15 : n < 20000000000000
  · exact ⟨(10000000000000, some 20000000000000, ⟨2024, 3, 1⟩), by decide, by
      simp [inRange]; omega⟩
  exact ⟨(20000000000000, none, ⟨2024, 9, 1⟩), by decide, by simp [inRange]; omega⟩

theorem ranges_unique (n : ℕ) : ∀ e1 ∈ USER_ID_RANGES, ∀ e2 ∈ USER_ID_RANGES,
    inRange e1 n = true → inRange e2 n = true → e1 = e2 := by
  intro e1 h1 e2 h2 hr1 hr2
  fin_cases h1 <;> fin_cases h2 <;>
    first
      | rfl
      | (exfalso; simp only [inRange] at hr1 hr2; simp at hr1 hr2; omega)

/-- C1: for a non-empty decimal-digit string, `estimate_from_user_id` returns
the date of the first (and only) `USER_ID_RANGES` entry with
`lower <= id < upper`; for an empty or non-digit string it returns `none`. -/
theorem C1_user_id_classification (s : List Char) :
    (pyIsDigit s = true →
      ∃ e, USER_ID_RANGES.find? (fun x => inRange x (strToNat s)) = some e ∧
        e ∈ USER_ID_RANGES ∧ inRange e (strToNat s) = true ∧
        estimate_from_user_id s = some e.2.2 ∧
        ∀ e1 ∈ USER_ID_RANGES, inRange e1 (strToNat s) = true → e1 = e) ∧
    (pyIsDigit s = false → estimate_from_user_id s = none) := by
  constructor
  · intro h
    obtain ⟨e0, he0, hr0⟩ := ranges_cover (strToNat s)
    have hsome : (USER_ID_RANGES.find? (fun x => inRange x (strToNat s))).isSome
        = true := List.find?_isSome.mpr ⟨e0, he0, hr0⟩
    obtain ⟨e, he⟩ := Option.isSome_iff_exists.mp hsome
    have hpe : inRange e (strToNat s) = true := by
      have h1 := List.find?_some he
      simpa using h1
    refine ⟨e, he, List.mem_of_find?_eq_some he, hpe, ?_, ?_⟩
    · simp [estimate_from_user_id, h, he]
    · intro e1 h1 hr1
      exact ranges_unique _ e1 h1 e (List.mem_of_find?_eq_some he) hr1 hpe
  · intro h
    simp [estimate_from_user_id, h]

/-- C1 witness: the digit string "3000000000" is classified. -/
theorem C1_user_id_classification_witness :
    pyIsDigit ['3', '0', '0', '0', '0', '0', '0', '0', '0', '0'] = true ∧
      (∃ e, USER_ID_RANGES.find?
          (fun x => inRange x
            (strToNat ['3', '0', '0', '0', '0', '0', '0', '0', '0', '0']))
          = some e ∧
        e ∈ USER_ID_RANGES ∧
        inRange e (strToNat ['3', '0', '0', '0', '0', '0', '0', '0', '0', '0'])
          = true ∧
        estimate_from_user_id ['3', '0', '0', '0', '0', '0', '0', '0', '0', '0']
          = some e.2.2 ∧
        ∀ e1 ∈ USER_ID_RANGES,
          inRange e1 (strToNat ['3', '0', '0', '0', '0', '0', '0', '0', '0', '0'])
            = true → e1 = e) :=
  ⟨by decide,
    (C1_user_id_classification ['3', '0', '0', '0', '0', '0', '0', '0', '0', '0']).1
      (by decide)⟩

theorem username_find_succeeds (s : List Char) :
    ∃ p, USERNAME_PATTERNS.find? (fun q => q.1 s) = some p := by
  have hmem : ((matchAnything, (⟨2020, 1, 1⟩ : Date)) :
      (List Char → Bool) × Date) ∈ USERNAME_PATTERNS := by
    simp [USERNAME_PATTERNS]
  have hsome : (USERNAME_PATTERNS.find? (fun q => q.1 s)).isSome = true :=
    List.find?_isSome.mpr ⟨_, hmem, rfl⟩
  exact Option.isSome_iff_exists.mp hsome

/-- C8: `estimate_from_username` returns `none` exactly on the empty string;
on every non-empty string it returns the date of the first matching
`USERNAME_PATTERNS` entry, and a first match always exists because the final
catch-all pattern accepts every string. -/
theorem C8_username_classification (s : List Char) :
    (estimate_from_username s = none ↔ s = []) ∧
    (s ≠ [] → ∃ p, USERNAME_PATTERNS.find? (fun q => q.1 s) = some p ∧
      p ∈ USERNAME_PATTERNS ∧ p.1 s = true ∧
      estimate_from_username s = some p.2) := by
  obtain ⟨p, hp⟩ := username_find_succeeds s
  have hps : p.1 s = true := by
    have h := List.find?_some hp
    simpa using h
  constructor
  · constructor
    · intro h
      by_contra hne
      have : estimate_from_username s = some p.2 := by
        simp [estimate_from_username, hne, hp]
      rw [this] at h
      exact Option.noConfusion h
    · intro h
      subst h
      simp [estimate_from_username]
  · intro hne
    exact ⟨p, hp, List.mem_of_find?_eq_some hp, hps, by
      simp [estimate_from_username, hne, hp]⟩

/-- C8 witness: the two-character name "xx" hits the short-name bucket. -/
theorem C8_username_classification_witness :
    (['x', 'x'] : List Char) ≠ [] ∧
      (∃ p, USERNAME_PATTERNS.find? (fun q => q.1 ['x', 'x']) = some p ∧
        p ∈ USERNAME_PATTERNS ∧ p.1 ['x', 'x'] = true ∧
        estimate_from_username ['x', 'x'] = some p.2) :=
  ⟨by decide, (C8_username_classification ['x', 'x']).2 (by decide)⟩

theorem dateLt_of_lt_of_le {a b c : Date} (h1 : dateLt a b = true)
    (h2 : dateLe b c = true) : dateLt a c = true := by
  rw [dateLt_iff] at *
  rw [dateLe_iff] at h2
  omega

theorem minList_mem : ∀ (t : List Date) (h : Date), minList h t ∈ h :: t
  | [], h => by simp [minList]
  | x :: t, h => by
    have ih := minList_mem t (if dateLt x h then x else h)
    simp only [minList, List.foldl_cons] at *
    rcases List.mem_cons.mp ih with h1 | h1
    · rw [h1]
      by_cases hc : dateLt x h = true
      · simp [hc]
      · simp [hc]
    · simp [h1]

theorem minFold_mono : ∀ (t : List Date) (a a' : Date),
    dateLe a a' = true → dateLe (minList a t) (minList a' t) = true
  | [], a, a', h => by simpa [minList] using h
  | x :: t, a, a', h => by
    simp only [minList, List.foldl_cons]
    apply minFold_mono t
    by_cases h1 : dateLt x a = true
    · have h2 : dateLt x a' = true := dateLt_of_lt_of_le h1 h
      simp only [h1, h2, if_true]
      exact dateLe_refl x
    · by_cases h2 : dateLt x a' = true
      · simp only [h1, h2, if_true, if_false]
        exact dateLe_of_not_lt h1
      · simp only [h1, h2, if_false]
        exact h

theorem minList_cons_le (a x : Date) (t : List Date) :
    dateLe (minList a (x :: t)) (minList x t) = true := by
  simp only [minList, List.foldl_cons]
  apply minFold_mono t
  by_cases h : dateLt x a = true
  · simp only [h, if_true]; exact dateLe_refl x
  · simp only [h, if_false]; exact dateLe_of_not_lt h

theorem dateMax_cases (a b : Date) : dateMax a b = a ∨ dateMax a b = b := by
  unfold dateMax
  by_cases h : dateLt a b = true
  · simp [h]
  · simp [h]

theorem dateMax_le {a b c : Date} (h1 : dateLe a c = true)
    (h2 : dateLe b c = true) : dateLe (dateMax a b) c = true := by
  unfold dateMax
  by_cases h : dateLt a b = true
  · simpa [h] using h2
  · simpa [h] using h1

theorem le_dateMax_right (a b : Date) : dateLe b (dateMax a b) = true := by
  unfold dateMax
  by_cases h : dateLt a b = true
  · simpa [h] using dateLe_refl b
  · simpa [h] using dateLe_of_not_lt h

theorem dateMax_mono_left {a a' : Date} (b : Date) (h : dateLe a a' = true) :
    dateLe (dateMax a b) (dateMax a' b) = true := by
  unfold dateMax
  by_cases h1 : dateLt a b = true
  · by_cases h2 : dateLt a' b = true
    · simp only [h1, h2, if_true]; exact dateLe_refl b
    · simp only [h1, h2, if_true, if_false]; exact dateLe_of_not_lt h2
  · by_cases h2 : dateLt a' b = true
    · simp only [h1, h2, if_true, if_false]
      exact dateLe_trans h (dateLe_of_lt h2)
    · simp only [h1, h2, if_false]; exact h

theorem followerYear_bounds (f : ℤ) :
    2017 ≤ followerYear f ∧ followerYear f ≤ 2021 := by
  unfold followerYear
  omega

theorem likesYear_bounds (l : ℤ) :
    2017 ≤ likesYear l ∧ likesYear l ≤ 2021 := by
  unfold likesYear
  omega

theorem followerYear_antitone {f1 f2 : ℤ} (_h1 : 0 ≤ f1) (h2 : f1 ≤ f2) :
    followerYear f2 ≤ followerYear f1 := by
  have hlog : intLog10 (f1.toNat + 1) ≤ intLog10 (f2.toNat + 1) := by
    rw [intLog10_eq_log, intLog10_eq_log]
    exact Nat.log_mono_right (by omega)
  have hdiv : intLog10 (f1.toNat + 1) / 2 ≤ intLog10 (f2.toNat + 1) / 2 :=
    Nat.div_le_div_right hlog
  unfold followerYear
  omega

theorem scores_elem_bounds {f l : ℤ} {v : Bool} {d : Date}
    (hd : d ∈ metricScores f l v) :
    d.day = 1 ∧ 1 ≤ d.month ∧ d.month ≤ 6 ∧ 2017 ≤ d.year ∧ d.year ≤ 2021 := by
  have hfb := followerYear_bounds f
  have hlb := likesYear_bounds l
  simp only [metricScores, List.mem_append] at hd
  rcases hd with hd | (hd | hd)
  · split_ifs at hd <;> simp at hd
    subst hd
    exact ⟨rfl, by simp, by simp, hfb.1, hfb.2⟩
  · split_ifs at hd <;> simp at hd
    subst hd
    exact ⟨rfl, by simp, by simp, hlb.1, hlb.2⟩
  · split_ifs at hd <;> simp at hd
    subst hd
    decide

theorem scores_elem_le {f l : ℤ} {v : Bool} {d : Date}
    (hd : d ∈ metricScores f l v) : dateLe d ⟨2021, 6, 1⟩ = true := by
  have hb := scores_elem_bounds hd
  rw [dateLe_iff]
  dsimp only
  omega

/-- Full characterisation of a metrics estimate: for non-negative inputs the
result exists, is one of the scores or the launch/default dates, lies between
the launch date and 2021-06-01, and has day 1 with bounded year/month. -/
theorem metrics_result (f l : ℤ) (v : Bool) (hf : 0 ≤ f) (hl : 0 ≤ l) :
    ∃ d, estimate_from_metrics f l v = some d ∧
      (d ∈ metricScores f l v ∨ d = earliest_date ∨ d = base_date) ∧
      dateLe earliest_date d = true ∧ dateLe d ⟨2021, 6, 1⟩ = true ∧
      d.day = 1 ∧ 1 ≤ d.month ∧ d.month ≤ 9 ∧ 2016 ≤ d.year ∧ d.year ≤ 2021 := by
  have hneg : ¬ (f < 0 ∨ l < 0) := by omega
  have hscore := @scores_elem_bounds f l v
  have hsle := @scores_elem_le f l v
  cases hs : metricScores f l v with
  | nil =>
    refine ⟨base_date, ?_, Or.inr (Or.inr rfl), by decide, by decide, by decide⟩
    simp [estimate_from_metrics, hneg, hs]
  | cons h t =>
    have hmem : minList h t ∈ metricScores f l v := by
      rw [hs]; exact minList_mem t h
    have hup : dateLe (minList h t) ⟨2021, 6, 1⟩ = true := hsle hmem
    have hbounds := hscore hmem
    refine ⟨dateMax (minList h t) earliest_date, ?_, ?_, ?_, ?_, ?_⟩
    · simp [estimate_from_metrics, hneg, hs]
    · rcases dateMax_cases (minList h t) earliest_date with hc | hc <;> rw [hc]
      · exact Or.inl (minList_mem t h)
      · exact Or.inr (Or.inl rfl)
    · exact le_dateMax_right _ _
    · exact dateMax_le hup (by decide)
    · rcases dateMax_cases (minList h t) earliest_date with hc | hc <;> rw [hc]
      · exact ⟨hbounds.1, by omega, by omega, by omega, by omega⟩
      · decide

theorem metrics_mono_followers (f1 f2 l : ℤ) (v : Bool) (h0 : 0 ≤ f1)
    (h12 : f1 ≤ f2) (hl : 0 ≤ l) :
    ∃ d1 d2, estimate_from_metrics f1 l v = some d1 ∧
      estimate_from_metrics f2 l v = some d2 ∧ dateLe d2 d1 = true := by
  have hneg1 : ¬ (f1 < 0 ∨ l < 0) := by omega
  have hneg2 : ¬ (f2 < 0 ∨ l < 0) := by omega
  by_cases hf2 : 0 < f2
  · have hrest : metricScores f1 l v =
        (if 0 < f1 then [(⟨followerYear f1, 1, 1⟩ : Date)] else []) ++
          ((if 0 < l then [(⟨likesYear l, 6, 1⟩ : Date)] else []) ++
            (if v then [(⟨2018, 1, 1⟩ : Date)] else [])) := rfl
    by_cases hf1 : 0 < f1
    · -- both follower candidates present
      have hy2 := followerYear_bounds f2
      have hanti := followerYear_antitone h0 h12
      have hhead : dateLe ⟨followerYear f2, 1, 1⟩ ⟨followerYear f1, 1, 1⟩
          = true := by
        rw [dateLe_iff]; dsimp only; omega
      have hmin := minFold_mono
        ((if 0 < l then [(⟨likesYear l, 6, 1⟩ : Date)] else []) ++
          (if v then [(⟨2018, 1, 1⟩ : Date)] else [])) _ _ hhead
      refine ⟨_, _, ?_, ?_, dateMax_mono_left earliest_date hmin⟩
      · simp only [estimate_from_metrics]
        rw [if_neg hneg1]
        rw [show metricScores f1 l v = ⟨followerYear f1, 1, 1⟩ ::
          ((if 0 < l then [(⟨likesYear l, 6, 1⟩ : Date)] else []) ++
            (if v then [(⟨2018, 1, 1⟩ : Date)] else [])) by
            rw [hrest, if_pos hf1]; rfl]
      · simp only [estimate_from_metrics]
        rw [if_neg hneg2]
        rw [show metricScores f2 l v = ⟨followerYear f2, 1, 1⟩ ::
          ((if 0 < l then [(⟨likesYear l, 6, 1⟩ : Date)] else []) ++
            (if v then [(⟨2018, 1, 1⟩ : Date)] else [])) by
            simp [metricScores, hf2]]
    · -- f1 = 0 < f2: the larger input gains a follower candidate
      have hs1 : metricScores f1 l v =
          (if 0 < l then [(⟨likesYear l, 6, 1⟩ : Date)] else []) ++
            (if v then [(⟨2018, 1, 1⟩ : Date)] else []) := by
        rw [hrest, if_neg hf1]; rfl
      have hs2 : metricScores f2 l v = ⟨followerYear f2, 1, 1⟩ ::
          ((if 0 < l then [(⟨likesYear l, 6, 1⟩ : Date)] else []) ++
            (if v then [(⟨2018, 1, 1⟩ : Date)] else [])) := by
        simp [metricScores, hf2]
      have hy2 := followerYear_bounds f2
      cases hr : (if 0 < l then [(⟨likesYear l, 6, 1⟩ : Date)] else []) ++
          (if v then [(⟨2018, 1, 1⟩ : Date)] else []) with
      | nil =>
        refine ⟨base_date, dateMax (minList ⟨followerYear f2, 1, 1⟩ [])
          earliest_date, ?_, ?_, ?_⟩
        · simp only [estimate_from_metrics]
          rw [if_neg hneg1, hs1, hr]
        · simp only [estimate_from_metrics]
          rw [if_neg hneg2, hs2, hr]
        · apply dateMax_le
          · show dateLe ⟨followerYear f2, 1, 1⟩ base_date = true
            rw [dateLe_iff]; dsimp only [base_date]; omega
          · decide
      | cons h t =>
        have hcons := minList_cons_le ⟨followerYear f2, 1, 1⟩ h t
        refine ⟨dateMax (minList h t) earliest_date,
          dateMax (minList ⟨followerYear f2, 1, 1⟩ (h :: t)) earliest_date,
          ?_, ?_, dateMax_mono_left earliest_date hcons⟩
        · simp only [estimate_from_metrics]
          rw [if_neg hneg1, hs1, hr]
        · simp only [estimate_from_metrics]
          rw [if_neg hneg2, hs2, hr]
  · -- f2 = 0 forces f1 = 0: identical calls
    have hq : f1 = f2 := by omega
    subst hq
    obtain ⟨d, hd, _, _, _⟩ := metrics_result f1 l v h0 hl
    exact ⟨d, d, hd, hd, dateLe_refl d⟩

/-- C5 counterexample: raising followers from 9 to 99 makes the derived year
drop from 2021 to 2020, so the year does decrease as followers increase. -/
theorem C5_counterexample :
    estimate_from_metrics 9 0 false = some ⟨2021, 1, 1⟩ ∧
      estimate_from_metrics 99 0 false = some ⟨2020, 1, 1⟩ ∧
      followerYear 9 = 2021 ∧ followerYear 99 = 2020 ∧
      ¬ (2021 ≤ 2020) := by decide

/-- C5 (amended): for fixed totalLikes and verified, as followerCount grows
the metrics estimate moves (weakly) backwards in time: the derived year is
monotonically non-increasing, never non-decreasing. -/
theorem C5_year_monotone (f1 f2 l : ℤ) (v : Bool) (h0 : 0 ≤ f1)
    (h12 : f1 ≤ f2) (hl : 0 ≤ l) :
    ∃ d1 d2, estimate_from_metrics f1 l v = some d1 ∧
      estimate_from_metrics f2 l v = some d2 ∧
      dateLe d2 d1 = true ∧ d2.year ≤ d1.year := by
  obtain ⟨d1, d2, h1, h2, hle⟩ := metrics_mono_followers f1 f2 l v h0 h12 hl
  exact ⟨d1, d2, h1, h2, hle, dateLe_year hle⟩

/-- C5 witness: followers 9 vs 99, no likes, unverified. -/
theorem C5_year_monotone_witness :
    (0 : ℤ) ≤ 9 ∧ (9 : ℤ) ≤ 99 ∧ (0 : ℤ) ≤ 0 ∧
      (∃ d1 d2, estimate_from_metrics 9 0 false = some d1 ∧
        estimate_from_metrics 99 0 false = some d2 ∧
        dateLe d2 d1 = true ∧ d2.year ≤ d1.year) :=
  ⟨by decide, by decide, by decide,
    C5_year_monotone 9 99 0 false (by decide) (by decide) (by decide)⟩

/-- C6: the follower-derived candidate year of line 121 is monotonically
non-increasing in the follower count, and is clamped to the minimum year
2017 = 2021 - 4 (the cap of `min(..., 4)`), never exceeding 2021. -/
theorem C6_follower_year_clamped (f1 f2 : ℤ) (h1 : 0 < f1) (h12 : f1 ≤ f2) :
    followerYear f2 ≤ followerYear f1 ∧
      2017 ≤ followerYear f2 ∧ followerYear f2 ≤ 2021 ∧
      followerYear f2 = 2021 - min (intLog10 (f2.toNat + 1) / 2) 4 :=
  ⟨followerYear_antitone (le_of_lt h1) h12, (followerYear_bounds f2).1,
    (followerYear_bounds f2).2, rfl⟩

/-- C6 witness: followers 1 vs 1000000. -/
theorem C6_follower_year_clamped_witness :
    (0 : ℤ) < 1 ∧ (1 : ℤ) ≤ 1000000 ∧
      (followerYear 1000000 ≤ followerYear 1 ∧
        2017 ≤ followerYear 1000000 ∧ followerYear 1000000 ≤ 2021 ∧
        followerYear 1000000 = 2021 - min (intLog10 (1000000 + 1) / 2) 4) :=
  ⟨by decide, by decide,
    C6_follower_year_clamped 1 1000000 (by decide) (by decide)⟩

/-- C7 counterexample: with followers = 0, totalLikes = 1, unverified, the
metrics estimate is 2021-06-01, which strictly follows the default date
2021-01-01, refuting "never follows the default date". -/
theorem C7_counterexample :
    estimate_from_metrics 0 1 false = some ⟨2021, 6, 1⟩ ∧
      dateLt base_date ⟨2021, 6, 1⟩ = true := by decide

/-- C7 (amended): for non-negative inputs the metrics estimate always exists,
never precedes the launch date 2016-09-01, and never follows 2021-06-01 (the
likes candidate of the default year; the bound 2021-01-01 claimed by the spec
is exceeded by exactly that candidate); with all-zero unverified input it is
exactly the default date 2021-01-01. -/
theorem C7_metrics_bounds (f l : ℤ) (v : Bool) (hf : 0 ≤ f) (hl : 0 ≤ l) :
    (∃ d, estimate_from_metrics f l v = some d ∧
      dateLe earliest_date d = true ∧ dateLe d ⟨2021, 6, 1⟩ = true) ∧
    (f = 0 → l = 0 → v = false →
      estimate_from_metrics f l v = some base_date) := by
  constructor
  · obtain ⟨d, hd, _, hlo, hup, _⟩ := metrics_result f l v hf hl
    exact ⟨d, hd, hlo, hup⟩
  · intro h1 h2 h3
    subst h1; subst h2; subst h3
    decide

/-- C7 witness: followers 5, likes 7, verified. -/
theorem C7_metrics_bounds_witness :
    (0 : ℤ) ≤ 5 ∧ (0 : ℤ) ≤ 7 ∧
      ((∃ d, estimate_from_metrics 5 7 true = some d ∧
        dateLe earliest_date d = true ∧ dateLe d ⟨2021, 6, 1⟩ = true) ∧
      ((5 : ℤ) = 0 → (7 : ℤ) = 0 → true = false →
        estimate_from_metrics 5 7 true = some base_date)) :=
  ⟨by decide, by decide, C7_metrics_bounds 5 7 true (by decide) (by decide)⟩

theorem le_foldl_max : ∀ (l : List ℕ) (a : ℕ), a ≤ l.foldl max a
  | [], a => le_refl a
  | x :: t, a => le_trans (le_max_left a x) (le_foldl_max t (max a x))

theorem mem_le_foldl_max : ∀ (l : List ℕ) (a x : ℕ), x ∈ l → x ≤ l.foldl max a
  | [], _, x, h => absurd h (List.not_mem_nil x)
  | y :: t, a, x, h => by
    rcases List.mem_cons.mp h with h | h
    · subst h
      exact le_trans (le_max_right a x) (le_foldl_max t _)
    · exact mem_le_foldl_max t _ x h

theorem foldl_max_mem : ∀ (l : List ℕ) (a : ℕ),
    l.foldl max a = a ∨ l.foldl max a ∈ l
  | [], _ => Or.inl rfl
  | x :: t, a => by
    simp only [List.foldl_cons]
    rcases foldl_max_mem t (max a x) with h | h
    · rw [h]
      rcases Nat.le_total a x with hc | hc
      · rw [max_eq_right hc]
        exact Or.inr (List.mem_cons_self x t)
      · rw [max_eq_left hc]
        exact Or.inl rfl
    · exact Or.inr (List.mem_cons_of_mem x h)

theorem foldl_max_zero_mem (l : List ℕ) (hne : l ≠ []) : l.foldl max 0 ∈ l := by
  rcases foldl_max_mem l 0 with h | h
  · cases l with
    | nil => exact absurd rfl hne
    | cons x t =>
      have hx : x ≤ (x :: t).foldl max 0 :=
        mem_le_foldl_max _ _ _ (List.mem_cons_self x t)
      rw [h] at hx
      have hx0 : x = 0 := Nat.le_zero.mp hx
      rw [h, ← hx0]
      exact List.mem_cons_self x t
  · exact h

theorem mem_validEstimates {o : Option Date} {w : ℕ} {m : String} {now : ℚ}
    {e : Estimate} (h : e ∈ validEstimates o w m now) :
    e.confidence = w ∧ e.method = m := by
  cases o with
  | none => simp [validEstimates] at h
  | some d =>
    simp only [validEstimates] at h
    split_ifs at h <;> simp at h
    subst h
    exact ⟨rfl, rfl⟩

theorem buildEstimates_mem {uid un : List Char} {f l : ℤ} {v : Bool} {now : ℚ}
    {e : Estimate} (h : e ∈ buildEstimates uid un f l v now) :
    (e.confidence = 3 ∧ e.method = "User ID Analysis") ∨
      (e.confidence = 2 ∧ e.method = "Username Pattern") ∨
      (e.confidence = 1 ∧ e.method = "Profile Metrics") := by
  simp only [buildEstimates, List.mem_append] at h
  rcases h with h | (h | h)
  · exact Or.inl (mem_validEstimates h)
  · exact Or.inr (Or.inl (mem_validEstimates h))
  · exact Or.inr (Or.inr (mem_validEstimates h))

theorem aggregate_empty (ests : List Estimate) (now : ℚ)
    (he : ests.isEmpty = true) :
    aggregate ests now =
      { estimated_date := now, confidence := "very_low", method := "Default",
        accuracy := "± 2 years", all_estimates := [] } := by
  simp [aggregate, he]

theorem aggregate_fields (ests : List Estimate) (now : ℚ)
    (he : ests.isEmpty = false) :
    (aggregate ests now).estimated_date = weightedMeanSpec ests ∧
    (aggregate ests now).all_estimates = ests ∧
    (aggregate ests now).confidence =
      (if (ests.map (fun e => e.confidence)).foldl max 0 = 3 then "high"
       else if (ests.map (fun e => e.confidence)).foldl max 0 = 2 then "medium"
       else "low") ∧
    (aggregate ests now).accuracy =
      (if (aggregate ests now).confidence = "high" then "± 6 months"
       else if (aggregate ests now).confidence = "medium" then "± 1 year"
       else "± 2 years") ∧
    (aggregate ests now).method =
      (match ests.find?
          (fun e => e.confidence = (ests.map (fun e => e.confidence)).foldl max 0)
        with
      | some e => e.method
      | none => "Combined") := by
  refine ⟨?_, ?_, ?_, ?_, ?_⟩ <;> simp [aggregate, he, weightedMeanSpec]

theorem estimates_nonempty_isEmpty_false {uid un : List Char} {f l : ℤ}
    {v : Bool} {now : ℚ}
    (h : (estimate_account_age uid un f l v now).all_estimates ≠ []) :
    (buildEstimates uid un f l v now).isEmpty = false := by
  by_contra hc
  have he : (buildEstimates uid un f l v now).isEmpty = true := by
    simpa using hc
  apply h
  show (aggregate (buildEstimates uid un f l v now) now).all_estimates = []
  rw [aggregate_empty _ _ he]

/-- C2: whenever the estimate list is non-empty, the estimated date equals
the confidence-weighted arithmetic mean of the contributing estimates'
epoch-second timestamps, with ordinal weights 1 (metrics), 2 (username),
3 (user id). -/
theorem C2_weighted_mean (uid un : List Char) (f l : ℤ) (v : Bool) (now : ℚ)
    (h : (estimate_account_age uid un f l v now).all_estimates ≠ []) :
    (estimate_account_age uid un f l v now).estimated_date =
      weightedMeanSpec (estimate_account_age uid un f l v now).all_estimates ∧
    ∀ e ∈ (estimate_account_age uid un f l v now).all_estimates,
      (e.confidence = 3 ∧ e.method = "User ID Analysis") ∨
        (e.confidence = 2 ∧ e.method = "Username Pattern") ∨
        (e.confidence = 1 ∧ e.method = "Profile Metrics") := by
  have he := estimates_nonempty_isEmpty_false h
  obtain ⟨hdate, hall, -, -, -⟩ := aggregate_fields _ now he
  constructor
  · show (aggregate (buildEstimates uid un f l v now) now).estimated_date = _
    rw [hdate]
    show _ = weightedMeanSpec
      (aggregate (buildEstimates uid un f l v now) now).all_estimates
    rw [hall]
  · intro e hm
    have hm2 : e ∈ buildEstimates uid un f l v now := by
      rw [show (estimate_account_age uid un f l v now).all_estimates =
        buildEstimates uid un f l v now from hall] at hm
      exact hm
    exact buildEstimates_mem hm2

/-- C2 witness: id "3000000000", username "xx", no metrics signals. -/
theorem C2_weighted_mean_witness :
    (estimate_account_age ['3', '0', '0', '0', '0', '0', '0', '0', '0', '0']
        ['x', 'x'] 0 0 false 1750000000).all_estimates ≠ [] ∧
    ((estimate_account_age ['3', '0', '0', '0', '0', '0', '0', '0', '0', '0']
        ['x', 'x'] 0 0 false 1750000000).estimated_date =
      weightedMeanSpec (estimate_account_age
        ['3', '0', '0', '0', '0', '0', '0', '0', '0', '0']
        ['x', 'x'] 0 0 false 1750000000).all_estimates ∧
    ∀ e ∈ (estimate_account_age ['3', '0', '0', '0', '0', '0', '0', '0', '0', '0']
        ['x', 'x'] 0 0 false 1750000000).all_estimates,
      (e.confidence = 3 ∧ e.method = "User ID Analysis") ∨
        (e.confidence = 2 ∧ e.method = "Username Pattern") ∨
        (e.confidence = 1 ∧ e.method = "Profile Metrics")) :=
  ⟨by decide,
    C2_weighted_mean ['3', '0', '0', '0', '0', '0', '0', '0', '0', '0']
      ['x', 'x'] 0 0 false 1750000000 (by decide)⟩

/-- C3: with a non-empty estimate list, the confidence label encodes the
maximum weight (3 → high, 2 → medium, otherwise low), the accuracy band is
a function of that label, and the method is the method of the first estimate
in evaluation order whose weight attains the maximum. -/
theorem C3_confidence_accuracy_method (uid un : List Char) (f l : ℤ)
    (v : Bool) (now : ℚ)
    (h : (estimate_account_age uid un f l v now).all_estimates ≠ []) :
    (estimate_account_age uid un f l v now).confidence =
      (if ((estimate_account_age uid un f l v now).all_estimates.map
          (fun e => e.confidence)).foldl max 0 = 3 then "high"
       else if ((estimate_account_age uid un f l v now).all_estimates.map
          (fun e => e.confidence)).foldl max 0 = 2 then "medium"
       else "low") ∧
    (estimate_account_age uid un f l v now).accuracy =
      (if (estimate_account_age uid un f l v now).confidence = "high"
        then "± 6 months"
       else if (estimate_account_age uid un f l v now).confidence = "medium"
        then "± 1 year"
       else "± 2 years") ∧
    ∃ e, (estimate_account_age uid un f l v now).all_estimates.find?
        (fun x => x.confidence =
          ((estimate_account_age uid un f l v now).all_estimates.map
            (fun e => e.confidence)).foldl max 0) = some e ∧
      (estimate_account_age uid un f l v now).method = e.method ∧
      e.confidence = ((estimate_account_age uid un f l v now).all_estimates.map
        (fun e => e.confidence)).foldl max 0 ∧
      e ∈ (estimate_account_age uid un f l v now).all_estimates := by
  have he := estimates_nonempty_isEmpty_false h
  obtain ⟨-, hall, hconf, hacc, hmeth⟩ := aggregate_fields _ now he
  unfold estimate_account_age
  rw [hall]
  have hEne : buildEstimates uid un f l v now ≠ [] := by
    intro hnil
    rw [hnil] at he
    simp at he
  refine ⟨hconf, hacc, ?_⟩
  have hmapne : ((buildEstimates uid un f l v now).map
      (fun e => e.confidence)) ≠ [] := by
    simpa using hEne
  have hmax := foldl_max_zero_mem _ hmapne
  obtain ⟨e1, he1, hc1⟩ := List.mem_map.mp hmax
  have hfs : ((buildEstimates uid un f l v now).find?
      (fun x => x.confidence = ((buildEstimates uid un f l v now).map
        (fun e => e.confidence)).foldl max 0)).isSome = true :=
    List.find?_isSome.mpr ⟨e1, he1, by simpa using hc1⟩
  obtain ⟨e0, he0⟩ := Option.isSome_iff_exists.mp hfs
  refine ⟨e0, he0, ?_, ?_, List.mem_of_find?_eq_some he0⟩
  · rw [hmeth, he0]
  · have h2 := List.find?_some he0
    simpa using h2

/-- C3 witness: id "3000000000" (weight 3, first) plus username "xx". -/
theorem C3_confidence_accuracy_method_witness :
    (estimate_account_age ['3', '0', '0', '0', '0', '0', '0', '0', '0', '0']
        ['x', 'x'] 0 0 false 1750000000).all_estimates ≠ [] ∧
    (estimate_account_age ['3', '0', '0', '0', '0', '0', '0', '0', '0', '0']
        ['x', 'x'] 0 0 false 1750000000).confidence =
      (if ((estimate_account_age ['3', '0', '0', '0', '0', '0', '0', '0', '0', '0']
          ['x', 'x'] 0 0 false 1750000000).all_estimates.map
          (fun e => e.confidence)).foldl max 0 = 3 then "high"
       else if ((estimate_account_age
          ['3', '0', '0', '0', '0', '0', '0', '0', '0', '0']
          ['x', 'x'] 0 0 false 1750000000).all_estimates.map
          (fun e => e.confidence)).foldl max 0 = 2 then "medium"
       else "low") :=
  ⟨by decide,
    (C3_confidence_accuracy_method ['3', '0', '0', '0', '0', '0', '0', '0', '0', '0']
      ['x', 'x'] 0 0 false 1750000000 (by decide)).1⟩

/-- C4 counterexample: at the present-day time 1750000000 (June 2025), the
inputs identifier = "", username = "", zero metrics, unverified do NOT leave
zero valid estimates: `estimate_from_metrics(0,0,False)` returns the default
date 2021-01-01, a valid past estimate, so the aggregator returns confidence
"low" with method "Profile Metrics", not the claimed very_low default. -/
theorem C4_counterexample :
    (estimate_account_age [] [] 0 0 false 1750000000).confidence = "low" ∧
      (estimate_account_age [] [] 0 0 false 1750000000).method
        = "Profile Metrics" ∧
      (estimate_account_age [] [] 0 0 false 1750000000).all_estimates
        = [⟨base_date, 1, "Profile Metrics"⟩] := by decide

theorem buildEstimates_empty_inputs (now : ℚ) :
    buildEstimates [] [] 0 0 false now =
      if (toEpoch base_date : ℚ) ≤ now
        then [⟨base_date, 1, "Profile Metrics"⟩] else [] := by
  have h1 : estimate_from_user_id [] = none := by decide
  have h2 : estimate_from_username [] = none := by decide
  have h3 : estimate_from_metrics 0 0 false = some base_date := by decide
  rw [buildEstimates, h1, h2, h3]
  simp [validEstimates]

/-- C4 (amended): with identifier = "", username = "", zero metrics and
unverified, the metrics classifier still contributes the default date
2021-01-01; the claimed default AggregateResult (estimated_date = now,
very_low, "Default", "± 2 years", no estimates) is returned only when the
current time precedes 2021-01-01, and for any current time from 2021-01-01
on the result instead has the single metrics estimate, confidence "low" and
method "Profile Metrics". -/
theorem C4_default_result (now : ℚ) :
    (now < (toEpoch base_date : ℚ) →
      estimate_account_age [] [] 0 0 false now =
        { estimated_date := now, confidence := "very_low", method := "Default",
          accuracy := "± 2 years", all_estimates := [] }) ∧
    ((toEpoch base_date : ℚ) ≤ now →
      estimate_account_age [] [] 0 0 false now =
        { estimated_date := (toEpoch base_date : ℚ), confidence := "low",
          method := "Profile Metrics", accuracy := "± 2 years",
          all_estimates := [⟨base_date, 1, "Profile Metrics"⟩] }) := by
  constructor
  · intro h
    have hb : buildEstimates [] [] 0 0 false now = [] := by
      rw [buildEstimates_empty_inputs]
      rw [if_neg (by exact not_le.mpr h)]
    show aggregate (buildEstimates [] [] 0 0 false now) now = _
    rw [hb]
    exact aggregate_empty [] now rfl
  · intro h
    have hb : buildEstimates [] [] 0 0 false now =
        [⟨base_date, 1, "Profile Metrics"⟩] := by
      rw [buildEstimates_empty_inputs, if_pos h]
    show aggregate (buildEstimates [] [] 0 0 false now) now = _
    rw [hb]
    simp only [aggregate]
    norm_num [weightedMeanSpec]
    decide

/-- C4 witness: with the clock set before 2021-01-01 the default result is
returned; the theorem is applied at now = 1000. -/
theorem C4_default_result_witness :
    (1000 : ℚ) < (toEpoch base_date : ℚ) ∧
      estimate_account_age [] [] 0 0 false 1000 =
        { estimated_date := (1000 : ℚ), confidence := "very_low",
          method := "Default", accuracy := "± 2 years", all_estimates := [] } :=
  ⟨by decide, (C4_default_result 1000).1 (by decide)⟩

theorem toEpoch_le_bound (d : Date) (hday : d.day = 1) (hm1 : 1 ≤ d.month)
    (hm9 : d.month ≤ 9) (hy1 : 2016 ≤ d.year) (hy2 : d.year ≤ 2021)
    (hle : dateLe d ⟨2021, 6, 1⟩ = true) :
    toEpoch d ≤ toEpoch ⟨2021, 6, 1⟩ := by
  obtain ⟨y, m, dd⟩ := d
  dsimp only at hday hm1 hm9 hy1 hy2
  subst hday
  interval_cases y <;> interval_cases m <;> revert hle <;> decide

/-- C10: the metrics classifier never abstains on non-negative inputs and
its estimate is at most 2021-06-01; hence for any current time from
2021-06-01 on, at least one valid estimate survives the future-date filter,
the very_low/"Default" branch of the aggregator is unreachable, and the
returned confidence is one of low/medium/high. -/
theorem C10_default_unreachable (uid un : List Char) (f l : ℤ) (v : Bool)
    (now : ℚ) (hf : 0 ≤ f) (hl : 0 ≤ l)
    (hnow : ((toEpoch ⟨2021, 6, 1⟩ : ℤ) : ℚ) ≤ now) :
    (∃ d, estimate_from_metrics f l v = some d ∧
      dateLe d ⟨2021, 6, 1⟩ = true) ∧
    (estimate_account_age uid un f l v now).all_estimates ≠ [] ∧
    (estimate_account_age uid un f l v now).confidence ≠ "very_low" ∧
    ((estimate_account_age uid un f l v now).confidence = "low" ∨
      (estimate_account_age uid un f l v now).confidence = "medium" ∨
      (estimate_account_age uid un f l v now).confidence = "high") ∧
    (estimate_account_age uid un f l v now).method ≠ "Default" := by
  obtain ⟨d, hd, -, hlo, hup, hday, hm1, hm9, hy1, hy2⟩ :=
    metrics_result f l v hf hl
  have hcast : ((toEpoch d : ℤ) : ℚ) ≤ ((toEpoch ⟨2021, 6, 1⟩ : ℤ) : ℚ) := by
    exact_mod_cast toEpoch_le_bound d hday hm1 hm9 hy1 hy2 hup
  have hde : (toEpoch d : ℚ) ≤ now := le_trans hcast hnow
  have hv3 : validEstimates (estimate_from_metrics f l v) 1
      "Profile Metrics" now = [⟨d, 1, "Profile Metrics"⟩] := by
    rw [hd]
    simp [validEstimates, hde]
  have hEne : buildEstimates uid un f l v now ≠ [] := by
    rw [buildEstimates, hv3]
    simp
  have he : (buildEstimates uid un f l v now).isEmpty = false := by
    cases hE : buildEstimates uid un f l v now with
    | nil => exact absurd hE hEne
    | cons a t => rfl
  obtain ⟨-, hall, hconf, -, hmeth⟩ := aggregate_fields _ now he
  unfold estimate_account_age
  refine ⟨⟨d, hd, hup⟩, ?_, ?_, ?_, ?_⟩
  · rw [hall]
    exact hEne
  · rw [hconf]
    split_ifs <;> decide
  · rw [hconf]
    split_ifs <;> simp
  · rw [hmeth]
    cases hfind : (buildEstimates uid un f l v now).find?
        (fun e => e.confidence = ((buildEstimates uid un f l v now).map
          (fun e => e.confidence)).foldl max 0) with
    | none => decide
    | some e0 =>
      have hmem := List.mem_of_find?_eq_some hfind
      rcases buildEstimates_mem hmem with ⟨-, hm⟩ | (⟨-, hm⟩ | ⟨-, hm⟩) <;>
        (show e0.method ≠ "Default"; rw [hm]; decide)

/-- C10 witness: empty identifier and username, zero metrics, unverified, at
the present-day time 1750000000 ≥ epoch(2021-06-01). -/
theorem C10_default_unreachable_witness :
    ((toEpoch ⟨2021, 6, 1⟩ : ℤ) : ℚ) ≤ 1750000000 ∧
    (∃ d, estimate_from_metrics 0 0 false = some d ∧
      dateLe d ⟨2021, 6, 1⟩ = true) ∧
    (estimate_account_age [] [] 0 0 false 1750000000).all_estimates ≠ [] ∧
    (estimate_account_age [] [] 0 0 false 1750000000).confidence
      ≠ "very_low" :=
  ⟨by decide,
    (C10_default_unreachable [] [] 0 0 false 1750000000 (by decide) (by decide)
      (by decide)).1,
    (C10_default_unreachable [] [] 0 0 false 1750000000 (by decide) (by decide)
      (by decide)).2.1,
    (C10_default_unreachable [] [] 0 0 false 1750000000 (by decide) (by decide)
      (by decide)).2.2.1⟩

/-- The formatting rule exactly as §4.5 of the spec words it: years first
with an optional month remainder joined by "and", else months, else days,
else "0 days"; "s" appended exactly when the count exceeds one. -/
def renderAgeSpec (y m d : ℕ) : String :=
  if 0 < y then
    (if 0 < m then pluralize y "year" ++ " and " ++ pluralize m "month"
     else pluralize y "year")
  else if 0 < m then pluralize m "month"
  else if 0 < d then pluralize d "day"
  else "0 days"

/-- C9: `calculate_age` returns "0 days" on a future date; otherwise it
renders the calendar-aware (years, months, days) decomposition of
now - created_date exactly per the spec's formatting rule, and a date
exactly 13 months in the past yields "1 year and 1 month". -/
theorem C9_calculate_age (created now : DT) :
    (dtLt now created = true → calculate_age created now = "0 days") ∧
    (dtLt now created = false →
      calculate_age created now =
        renderAgeSpec (relativedeltaYMD now created).1
          (relativedeltaYMD now created).2.1
          (relativedeltaYMD now created).2.2) ∧
    calculate_age ⟨2024, 1, 15, 0⟩ ⟨2025, 2, 15, 0⟩ = "1 year and 1 month" ∧
    relativedeltaYMD ⟨2025, 2, 15, 0⟩ ⟨2024, 1, 15, 0⟩ = (1, 1, 0) := by
  refine ⟨?_, ?_, by decide, by decide⟩
  · intro h
    simp [calculate_age, h]
  · intro h
    simp only [calculate_age, h, Bool.false_eq_true, if_false]
    rcases hrd : relativedeltaYMD now created with ⟨y, m, dd⟩
    dsimp only
    simp only [renderAgeSpec]
    split_ifs <;> rfl

/-- C9 witness: a past date nine days before the current time. -/
theorem C9_calculate_age_witness :
    dtLt (⟨2025, 3, 10, 0⟩ : DT) ⟨2025, 3, 1, 0⟩ = false ∧
      calculate_age ⟨2025, 3, 1, 0⟩ ⟨2025, 3, 10, 0⟩ =
        renderAgeSpec (relativedeltaYMD ⟨2025, 3, 10, 0⟩ ⟨2025, 3, 1, 0⟩).1
          (relativedeltaYMD ⟨2025, 3, 10, 0⟩ ⟨2025, 3, 1, 0⟩).2.1
          (relativedeltaYMD ⟨2025, 3, 10, 0⟩ ⟨2025, 3, 1, 0⟩).2.2 :=
  ⟨by decide,
    (C9_calculate_age ⟨2025, 3, 1, 0⟩ ⟨2025, 3, 10, 0⟩).2.1 (by decide)⟩
